import Mathlib

/-!
Shallow embedding of the Python profiler core of `libpyomnitrace.cpp`
(namespace `pyomnitrace::pyprofile`): the configuration record, the
regex-set plumbing, the label builder, the per-thread depth tracker, the
region ledger and the event dispatcher `profiler_function`, together with
the session control functions `_init` / `_fini` and the thread-local
configuration materialization of `get_config`.

Conventions of the embedding:
  * `std::unordered_set<std::string>` (`strset_t`) is a `List String`
    with insert-if-absent semantics (`insertStr`);
  * `std::unordered_map` keyed containers are association lists
    (`alistFind` / `alistSet` model `find` / `operator[]`);
  * a region handle (pair of closures capturing the interned label) is
    the label string it captured; its begin/end actions are
    `SinkCall.push` / `SinkCall.pop` of that string;
  * `std::regex_search(name, regex(pat))` is an abstract parameter
    `rmatch : String → String → Bool` (the regex engine is external
    library code);
  * the only tolerated introspection failure (`AttributeError`) and the
    propagated ones are the constructors of `ArgsOutcome`; a propagated
    exception is the `none` / `true`-flag result of the dispatcher, and
    the `tim::scope::destructor` restoring the re-entrancy flag on every
    exit path is the wrapper that rebuilds the state with
    `disable := false`;
  * `int32_t` counters are `Int` (no overflow is exercised here).
-/

namespace PyProfile

/-- A call into the external sink: `omnitrace_push_region` or
`omnitrace_pop_region` with the given label. -/
inductive SinkCall where
  | push (label : String)
  | pop (label : String)
  deriving DecidableEq, Repr

/-- The four recognized event kinds (`PyTrace_CALL`, `PyTrace_C_CALL`,
`PyTrace_RETURN`, `PyTrace_C_RETURN`). -/
inductive EvKind where
  | call
  | c_call
  | ret
  | c_ret
  deriving DecidableEq, Repr

/-- Outcome of the argument-introspection facility `_get_args`:
a formatted string, an `AttributeError` (swallowed, empty string), or
any other exception (propagated). -/
inductive ArgsOutcome where
  | ok (s : String)
  | attrError
  | otherError
  deriving DecidableEq, Repr

/-- `true` iff `_get_args` raises an exception that is propagated. -/
def argsThrows : ArgsOutcome → Bool
  | ArgsOutcome.otherError => true
  | _ => false

/-- The argument string `_get_args` yields when it does not propagate:
the formatted arguments, or `""` after a swallowed `AttributeError`. -/
def argsString : ArgsOutcome → String
  | ArgsOutcome.ok s => s
  | _ => ""

/-- The fields of a `PyFrameObject` the dispatcher reads. -/
structure Frame where
  co_name : String
  co_filename : String
  f_lineno : Int
  deriving DecidableEq, Repr

/-- `strset_t::insert`: add a string to the set if absent. -/
def insertStr (s : List String) (x : String) : List String :=
  if x ∈ s then s else s ++ [x]

/-- `_set_strset`: insert every element of the input list into the
target set (the target is NOT cleared first). -/
def _set_strset (inp : List String) (targ : List String) : List String :=
  inp.foldl insertStr targ

/-- `find` on an association list (models `unordered_map::find`). -/
def alistFind {α β : Type} [DecidableEq α] (a : α) : List (α × β) → Option β
  | [] => none
  | (x, y) :: rest => if x = a then some y else alistFind a rest

/-- Store a value under a key in an association list (models the
write-back effect of `unordered_map::operator[]`). -/
def alistSet {α β : Type} [DecidableEq α] (l : List (α × β)) (a : α) (b : β) :
    List (α × β) :=
  match l with
  | [] => [(a, b)]
  | (x, y) :: rest => if x = a then (a, b) :: rest else (x, y) :: alistSet rest a b

/-- `profiler_label_map_t`: label → stack of open region handles. -/
abbrev LabelMap := List (String × List String)

/-- `profiler_index_map_t`: depth → label map (the region ledger). -/
abbrev Records := List (Int × LabelMap)

/-- The `config` struct, with its C++ member initializers as default
field values (the two exclude sets are pre-seeded). -/
structure Config where
  is_running : Bool := false
  trace_c : Bool := false
  include_internal : Bool := false
  include_args : Bool := false
  include_line : Bool := false
  include_filename : Bool := false
  full_filepath : Bool := false
  ignore_stack_depth : Int := 0
  base_stack_depth : Int := -1
  base_module_path : String := ""
  include_functions : List String := []
  include_filenames : List String := []
  exclude_functions : List String :=
    ["^(FILE|FUNC|LINE)$", "^get_fcode$", "^_(_exit__|handle_fromlist|shutdown|get_sep)$",
     "^is(function|class)$", "^basename$", "^<.*>$"]
  exclude_filenames : List String :=
    ["(__init__|__main__|functools|encoder|decoder|_pylab_helpers|threading).py$", "^<.*>$"]
  records : Records := []
  verbose : Int := 0
  deriving DecidableEq, Repr

/-- Setter behind the `only_functions` property: `_set_strset` into
`include_functions`. -/
def set_only_functions (c : Config) (val : List String) : Config :=
  { c with include_functions := _set_strset val c.include_functions }

/-- Setter behind the `only_filenames` property. -/
def set_only_filenames (c : Config) (val : List String) : Config :=
  { c with include_filenames := _set_strset val c.include_filenames }

/-- Setter behind the `skip_functions` property. -/
def set_skip_functions (c : Config) (val : List String) : Config :=
  { c with exclude_functions := _set_strset val c.exclude_functions }

/-- Setter behind the `skip_filenames` property. -/
def set_skip_filenames (c : Config) (val : List String) : Config :=
  { c with exclude_filenames := _set_strset val c.exclude_filenames }

/-- `_get_basename`: the part of the path after the last `/`, or the
whole path when it has no `/`. -/
def _get_basename (fullpath : String) : String :=
  if fullpath.toList.contains '/' then
    ((fullpath.toList.reverse.takeWhile (fun c => c != '/')).reverse).asString
  else fullpath

/-- The dirname computation of `_init`:
`_file.substr(0, _file.find_last_of('/'))` when the module file path
contains a `/`, else the path unchanged. -/
def moduleDir (f : String) : String :=
  if f.toList.contains '/' then
    (((f.toList.reverse.dropWhile (fun c => c != '/')).drop 1).reverse).asString
  else f

/-- `_get_label`: build the display label from the function name, the
file basename or full path, the line number and the formatted argument
string, driven by the configuration flags. -/
def _get_label (cfg : Config) (func filename fullpath : String) (lineno : Int)
    (argsStr : String) : String :=
  let f0 := if cfg.include_filename then "[" ++ func else func
  let f1 := if cfg.include_args then f0 ++ argsStr else f0
  let f2 := if cfg.include_filename then f1 ++ "]" else f1
  let f3 :=
    if cfg.include_filename then
      if cfg.full_filepath then f2 ++ "[" ++ fullpath else f2 ++ "[" ++ filename
    else f2
  if cfg.include_line && cfg.include_filename then
    f3 ++ ":" ++ toString lineno ++ "]"
  else if cfg.include_line then f3 ++ ":" ++ toString lineno
  else if cfg.include_filename then f3 ++ "]"
  else f3

/-- `_find_matching`: true iff the candidate matches at least one
pattern of the set (the regex engine is the abstract `rmatch`). -/
def _find_matching (rmatch : String → String → Bool) (expr : List String)
    (name : String) : Bool :=
  expr.any fun pat => rmatch pat name

/-- `strncmp(full, path, path.length()) == 0`: the path is a character
prefix of the full name (always true for the empty path). -/
def pathStartsWith : List Char → List Char → Bool
  | [], _ => true
  | _ :: _, [] => false
  | a :: as, b :: bs => a == b && pathStartsWith as bs

/-- Classification of the `swhat` string into an event kind; `none`
models `what < 0` (unrecognized). -/
def classify (s : String) : Option EvKind :=
  if s = "call" then some EvKind.call
  else if s = "c_call" then some EvKind.c_call
  else if s = "return" then some EvKind.ret
  else if s = "c_return" then some EvKind.c_ret
  else none

/-- The depth-tracker step: given an event kind and the current counter,
return the depth used for this event and the new counter value
(`_fdepth = _depth_tracker++` on calls, `_fdepth = --_depth_tracker`
on returns). -/
def nextDepth : EvKind → Int → Int × Int
  | EvKind.call, c => (c, c + 1)
  | EvKind.c_call, c => (c, c + 1)
  | EvKind.ret, c => (c - 1, c - 1)
  | EvKind.c_ret, c => (c - 1, c - 1)

/-- Net counter movement of one event. -/
def depthDelta : EvKind → Int
  | EvKind.call => 1
  | EvKind.c_call => 1
  | EvKind.ret => -1
  | EvKind.c_ret => -1

/-- Net counter movement of a sequence of events. -/
def netDelta (es : List EvKind) : Int :=
  (es.map depthDelta).sum

/-- Counter value after running a sequence of events through the depth
tracker. -/
def runCounter (es : List EvKind) (c : Int) : Int :=
  es.foldl (fun c e => (nextDepth e c).2) c

/-- `_profiler_call`: push a fresh handle at `(depth, label)` into the
ledger (`operator[]` creates missing entries) and invoke its
begin-action. -/
def _profiler_call (records : Records) (fdepth : Int) (label : String) :
    Records × List SinkCall :=
  let lm := (alistFind fdepth records).getD []
  let stk := (alistFind label lm).getD []
  (alistSet records fdepth (alistSet lm label (stk ++ [label])), [SinkCall.push label])

/-- `_profiler_return`: look up `(depth, label)`; on a missing depth
entry, missing label entry or empty handle stack, do nothing; else
invoke the end-action of the last handle and pop it. -/
def _profiler_return (records : Records) (fdepth : Int) (label : String) :
    Records × List SinkCall :=
  match alistFind fdepth records with
  | none => (records, [])
  | some lm =>
    match alistFind label lm with
    | none => (records, [])
    | some [] => (records, [])
    | some (h :: t) =>
      (alistSet records fdepth (alistSet lm label ((h :: t).dropLast)),
       [SinkCall.pop ((h :: t).getLastD h)])

/-- The thread-local state `profiler_function` works on: the thread's
configuration (from `get_config`), the re-entrancy flag `_disable`, the
process-wide captured installation path `_omnitrace_path` (`none` while
not yet captured), the interned label registry `_labels`, and the
per-thread `_depth_tracker` counter. -/
structure TLState where
  config : Config
  disable : Bool
  omnitracePath : Option String
  labels : List String
  depthTracker : Int
  deriving DecidableEq, Repr

/-- Fresh thread-local state: the thread's materialized configuration,
`_disable = false`, `_labels` empty, `_depth_tracker = 0`; the
process-wide captured path is whatever it already is. -/
def mkTLState (cfg : Config) (opath : Option String) : TLState :=
  { config := cfg, disable := false, omnitracePath := opath, labels := [],
    depthTracker := 0 }

/-- The body of `profiler_function` past the re-entrancy and null-frame
checks and the path capture: filters, label building, depth step and
ledger update.  Returns `none` when an exception from `_get_args`
propagates, else the new label registry, ledger, counter and the sink
calls made. -/
def profiler_body (rmatch : String → String → Bool) (cfg : Config) (opath : String)
    (frame : Frame) (what : String) (args : ArgsOutcome)
    (labels : List String) (records : Records) (depth : Int) :
    Option (List String × Records × Int × List SinkCall) :=
  match classify what with
  | none => some (labels, records, depth, [])
  | some k =>
    if !cfg.trace_c && (k == EvKind.c_call || k == EvKind.c_ret) then
      some (labels, records, depth, [])
    else
      let func := frame.co_name
      if !cfg.include_functions.isEmpty &&
          !_find_matching rmatch cfg.include_functions func then
        some (labels, records, depth, [])
      else if _find_matching rmatch cfg.exclude_functions func then
        some (labels, records, depth, [])
      else
        let full := frame.co_filename
        let file := _get_basename full
        if !cfg.include_internal && pathStartsWith opath.toList full.toList then
          some (labels, records, depth, [])
        else if !cfg.include_filenames.isEmpty &&
            !_find_matching rmatch cfg.include_filenames full then
          some (labels, records, depth, [])
        else if _find_matching rmatch cfg.exclude_filenames full then
          some (labels, records, depth, [])
        else if decide (3 < cfg.verbose) && argsThrows args then none
        else if cfg.include_args && argsThrows args then none
        else
          let label := _get_label cfg func file full frame.f_lineno (argsString args)
          if label.isEmpty then some (labels, records, depth, [])
          else
            let labels2 := insertStr labels label
            let fd := (nextDepth k depth).1
            let depth2 := (nextDepth k depth).2
            match k with
            | EvKind.call =>
              let rc := _profiler_call records fd label
              some (labels2, rc.1, depth2, rc.2)
            | EvKind.c_call =>
              let rc := _profiler_call records fd label
              some (labels2, rc.1, depth2, rc.2)
            | EvKind.ret =>
              let rc := _profiler_return records fd label
              some (labels2, rc.1, depth2, rc.2)
            | EvKind.c_ret =>
              let rc := _profiler_return records fd label
              some (labels2, rc.1, depth2, rc.2)

/-- `profiler_function`: the dispatcher.  A nested (re-entrant) call
returns immediately with everything untouched; otherwise the scope-exit
destructor restores `_disable = false` on every exit path, the
installation path is captured once (first pass through), and the body
runs.  The third output component is `true` iff an exception
propagated out. -/
def profiler_function (rmatch : String → String → Bool) (st : TLState)
    (pframe : Option Frame) (what : String) (args : ArgsOutcome) :
    TLState × List SinkCall × Bool :=
  if st.disable then (st, [], false)
  else
    match pframe with
    | none => ({ st with disable := false }, [], false)
    | some frame =>
      let opath := st.omnitracePath.getD st.config.base_module_path
      match profiler_body rmatch st.config opath frame what args st.labels
          st.config.records st.depthTracker with
      | none => ({ st with disable := false, omnitracePath := some opath }, [], true)
      | some (labels2, records2, depth2, calls) =>
        ({ config := { st.config with records := records2 }, disable := false,
           omnitracePath := some opath, labels := labels2, depthTracker := depth2 },
         calls, false)

/-- The value stored into `base_module_path` by `_init`: the dirname of
the `omnitrace` module file when the import/cast succeeds, else (cast
error, printed and swallowed) the previous value. -/
def newBMP (moduleFile : Option String) (old : String) : String :=
  match moduleFile with
  | some f => moduleDir f
  | none => old

/-- `_init` (the `profiler_init` binding): always store the module
dirname into `base_module_path`; then, unless already running, clear
the ledger, reset `base_stack_depth` to `-1` and set the running flag.
The per-thread depth counter is not touched. -/
def _init (moduleFile : Option String) (st : TLState) : TLState :=
  let cfg :=
    match moduleFile with
    | some f => { st.config with base_module_path := moduleDir f }
    | none => st.config
  if cfg.is_running then { st with config := cfg }
  else
    { st with config :=
        { cfg with records := [], base_stack_depth := -1, is_running := true } }

/-- `_fini` (the `profiler_finalize` binding): no-op unless running;
else clear the running flag, reset `base_stack_depth` and clear the
ledger. -/
def _fini (st : TLState) : TLState :=
  if st.config.is_running then
    { st with config :=
        { st.config with is_running := false, base_stack_depth := -1, records := [] } }
  else st

/-- What a thread's `get_config` resolves to: the first thread observed
(atomic count 0) gets the process-wide instance itself; every later
thread gets a freshly copied instance. -/
inductive ThreadSlot where
  | aliasG
  | copied (c : Config)
  deriving DecidableEq, Repr

/-- The copy-constructor part of `get_config`'s thread-local factory:
a fresh `config{}` with the listed fields copied from the process-wide
instance (`ignore_stack_depth`, `base_stack_depth` and `records` keep
their defaults). -/
def seedCopy (g : Config) : Config :=
  { is_running := g.is_running, trace_c := g.trace_c,
    include_internal := g.include_internal, include_args := g.include_args,
    include_line := g.include_line, include_filename := g.include_filename,
    full_filepath := g.full_filepath, ignore_stack_depth := 0,
    base_stack_depth := -1, base_module_path := g.base_module_path,
    include_functions := g.include_functions,
    include_filenames := g.include_filenames,
    exclude_functions := g.exclude_functions,
    exclude_filenames := g.exclude_filenames, records := [], verbose := g.verbose }

/-- Process-wide configuration state: the `_instance` singleton, the
materialized per-thread slots, and the atomic thread count. -/
structure ProcState where
  global : Config
  threads : List (Nat × ThreadSlot)
  count : Nat
  deriving DecidableEq, Repr

/-- The process state before any thread called `get_config`. -/
def initialProc : ProcState :=
  { global := {}, threads := [], count := 0 }

/-- First call of `get_config` on a thread: materialize its slot (an
alias of the process-wide instance for the thread drawing count 0, a
`seedCopy` for every later thread); later calls return the existing
slot. -/
def observe (s : ProcState) (tid : Nat) : ProcState :=
  match alistFind tid s.threads with
  | some _ => s
  | none =>
    if s.count = 0 then
      { s with threads := s.threads ++ [(tid, ThreadSlot.aliasG)], count := s.count + 1 }
    else
      { s with threads := s.threads ++ [(tid, ThreadSlot.copied (seedCopy s.global))],
               count := s.count + 1 }

/-- The configuration `get_config` returns on a materialized thread. -/
def effectiveConfig (s : ProcState) (tid : Nat) : Option Config :=
  match alistFind tid s.threads with
  | some ThreadSlot.aliasG => some s.global
  | some (ThreadSlot.copied c) => some c
  | none => none

/-- A configuration mutation executed on a given thread (every
property setter runs through `get_config()` of the calling thread):
materialize the slot, then apply the mutation to whatever instance the
slot designates. -/
def mutateOn (s : ProcState) (tid : Nat) (f : Config → Config) : ProcState :=
  let s' := observe s tid
  match alistFind tid s'.threads with
  | some ThreadSlot.aliasG => { s' with global := f s'.global }
  | some (ThreadSlot.copied c) =>
    { s' with threads := alistSet s'.threads tid (ThreadSlot.copied (f c)) }
  | none => s'

/-- The regex-engine instantiation used by concrete witnesses: plain
substring containment. -/
def substrMatch : String → String → Bool :=
  fun pat s => decide (pat.toList <:+: s.toList)

/-- A regex engine that never matches (used by concrete scenarios that
must pass the pre-seeded exclude sets). -/
def mFalse : String → String → Bool := fun _ _ => false

/-- A concrete frame used by scenarios and witnesses. -/
def frEx : Frame := { co_name := "foo", co_filename := "bar.py", f_lineno := 1 }

theorem mem_insertStr (s : List String) (a x : String) :
    x ∈ insertStr s a ↔ x ∈ s ∨ x = a := by
  by_cases h : a ∈ s
  · simp only [insertStr, if_pos h]
    constructor
    · exact Or.inl
    · rintro (hx | rfl)
      · exact hx
      · exact h
  · simp [insertStr, if_neg h]

theorem mem_set_strset (L t : List String) (x : String) :
    x ∈ _set_strset L t ↔ x ∈ t ∨ x ∈ L := by
  induction L generalizing t with
  | nil => simp [_set_strset]
  | cons a L ih =>
    simp only [_set_strset, List.foldl_cons] at ih ⊢
    rw [ih, mem_insertStr]
    simp only [List.mem_cons]
    tauto

/-- C1 amended: each pattern-set setter inserts the given patterns into
the existing set, so the result is the union of the previous contents
and the given list (not a whole-set replacement). -/
theorem strset_setters_are_union (c : Config) (L : List String) (x : String) :
    (x ∈ (set_only_functions c L).include_functions ↔
      x ∈ c.include_functions ∨ x ∈ L) ∧
    (x ∈ (set_only_filenames c L).include_filenames ↔
      x ∈ c.include_filenames ∨ x ∈ L) ∧
    (x ∈ (set_skip_functions c L).exclude_functions ↔
      x ∈ c.exclude_functions ∨ x ∈ L) ∧
    (x ∈ (set_skip_filenames c L).exclude_filenames ↔
      x ∈ c.exclude_filenames ∨ x ∈ L) :=
  ⟨mem_set_strset L c.include_functions x, mem_set_strset L c.include_filenames x,
   mem_set_strset L c.exclude_functions x, mem_set_strset L c.exclude_filenames x⟩

/-- C1 counterexample: setting `skip_functions` on the default
configuration to the one-element list `["myfunc"]` leaves the default
pattern `"^get_fcode$"` in the set, so the set does not contain exactly
the given patterns. -/
theorem strset_setter_not_replacement :
    "^get_fcode$" ∈ (set_skip_functions {} ["myfunc"]).exclude_functions ∧
    "^get_fcode$" ∉ (["myfunc"] : List String) := by
  constructor
  · decide
  · decide

/-- Counter value after a sequence of events: the start value plus the
net movement of the sequence. -/
theorem runCounter_eq (es : List EvKind) (c : Int) :
    runCounter es c = c + netDelta es := by
  induction es generalizing c with
  | nil => simp [runCounter, netDelta]
  | cons e es ih =>
    have h1 : runCounter (e :: es) c = runCounter es ((nextDepth e c).2) := rfl
    rw [h1, ih]
    cases e <;> simp [nextDepth, netDelta, depthDelta] <;> ring

/-- C4: a call/native-call event is assigned the counter value before
the increment, a return/native-return event the value after the
decrement; hence a call at counter `c`, followed by any net-balanced
sequence of events, is unwound by a return observing the same depth
`c`. -/
theorem depth_call_return_match (c : Int) (mid : List EvKind) :
    nextDepth EvKind.call c = (c, c + 1) ∧
    nextDepth EvKind.c_call c = (c, c + 1) ∧
    nextDepth EvKind.ret c = (c - 1, c - 1) ∧
    nextDepth EvKind.c_ret c = (c - 1, c - 1) ∧
    (netDelta mid = 0 →
      (nextDepth EvKind.ret (runCounter mid (nextDepth EvKind.call c).2)).1
        = (nextDepth EvKind.call c).1) := by
  refine ⟨rfl, rfl, rfl, rfl, fun h => ?_⟩
  simp [nextDepth, runCounter_eq, h]

/-- Witness for C4 at `c = 5` with the balanced inner sequence
`[call, ret]`. -/
theorem depth_call_return_match_witness :
    (nextDepth EvKind.ret
      (runCounter [EvKind.call, EvKind.ret] (nextDepth EvKind.call 5).2)).1
      = (nextDepth EvKind.call 5).1 :=
  (depth_call_return_match 5 [EvKind.call, EvKind.ret]).2.2.2.2 (by decide)

/-- C8: a return event whose depth entry is missing, whose label entry
is missing, or whose handle stack is empty, leaves the ledger unchanged
and makes no sink call. -/
theorem return_miss_is_noop (records : Records) (d : Int) (l : String)
    (h : alistFind d records = none ∨
         ∃ lm, alistFind d records = some lm ∧
           (alistFind l lm = none ∨ alistFind l lm = some [])) :
    _profiler_return records d l = (records, []) := by
  unfold _profiler_return
  rcases h with h | ⟨lm, hlm, h⟩
  · rw [h]
  · rcases h with h | h <;> simp [hlm, h]

/-- Witness for C8: an empty ledger on a return at depth 0. -/
theorem return_miss_is_noop_witness :
    _profiler_return [] 0 "x" = ([], []) :=
  return_miss_is_noop [] 0 "x" (Or.inl rfl)

/-- C7: the three concrete label-builder cases. -/
theorem label_builder_cases :
    _get_label { include_filename := true, include_line := true } "foo" "bar.py"
      "/tmp/bar.py" 10 "" = "[foo][bar.py:10]" ∧
    _get_label { include_line := true } "foo" "bar.py" "/tmp/bar.py" 10 ""
      = "foo:10" ∧
    _get_label {} "foo" "bar.py" "/tmp/bar.py" 10 "" = "foo" :=
  ⟨rfl, rfl, rfl⟩

theorem profiler_body_unrecognized (rmatch : String → String → Bool) (cfg : Config)
    (opath : String) (frame : Frame) (what : String) (args : ArgsOutcome)
    (labels : List String) (records : Records) (depth : Int)
    (hc : classify what = none) :
    profiler_body rmatch cfg opath frame what args labels records depth
      = some (labels, records, depth, []) := by
  unfold profiler_body
  rw [hc]

/-- C9: an event whose kind string is none of `call`, `c_call`,
`return`, `c_return` leaves the ledger, the depth counter and the label
registry unchanged and makes no sink call. -/
theorem unrecognized_kind_noop (rmatch : String → String → Bool) (st : TLState)
    (pframe : Option Frame) (what : String) (args : ArgsOutcome)
    (h1 : what ≠ "call") (h2 : what ≠ "c_call") (h3 : what ≠ "return")
    (h4 : what ≠ "c_return") :
    (profiler_function rmatch st pframe what args).1.config.records
      = st.config.records ∧
    (profiler_function rmatch st pframe what args).1.depthTracker = st.depthTracker ∧
    (profiler_function rmatch st pframe what args).1.labels = st.labels ∧
    (profiler_function rmatch st pframe what args).2.1 = [] := by
  have hc : classify what = none := by simp [classify, h1, h2, h3, h4]
  unfold profiler_function
  cases hd : st.disable with
  | true => simp [hd]
  | false =>
    simp only [hd, Bool.false_eq_true, if_false]
    cases pframe with
    | none => simp
    | some frame =>
      have hb := profiler_body_unrecognized rmatch st.config
        (st.omnitracePath.getD st.config.base_module_path) frame what args st.labels
        st.config.records st.depthTracker hc
      simp [hb]

/-- Witness for C9: the event kind `"line"` on a fresh state. -/
theorem unrecognized_kind_noop_witness :
    (profiler_function mFalse (mkTLState {} none) (some frEx) "line"
        (ArgsOutcome.ok "")).1.config.records = (mkTLState {} none).config.records ∧
    (profiler_function mFalse (mkTLState {} none) (some frEx) "line"
        (ArgsOutcome.ok "")).1.depthTracker = (mkTLState {} none).depthTracker ∧
    (profiler_function mFalse (mkTLState {} none) (some frEx) "line"
        (ArgsOutcome.ok "")).1.labels = (mkTLState {} none).labels ∧
    (profiler_function mFalse (mkTLState {} none) (some frEx) "line"
        (ArgsOutcome.ok "")).2.1 = [] :=
  unrecognized_kind_noop mFalse (mkTLState {} none) (some frEx) "line"
    (ArgsOutcome.ok "") (by decide) (by decide) (by decide) (by decide)

/-- C5: while the thread-local `_disable` flag is true, an invocation
of the dispatcher is a complete no-op (state identical, zero sink
calls, no exception); and on every exit path of a non-nested
invocation — early rejection, exception propagation, or a completed
dispatch — the flag is restored to false. -/
theorem reentrancy_guard (rmatch : String → String → Bool) (st : TLState)
    (pframe : Option Frame) (what : String) (args : ArgsOutcome) :
    (st.disable = true →
      profiler_function rmatch st pframe what args = (st, [], false)) ∧
    (st.disable = false →
      (profiler_function rmatch st pframe what args).1.disable = false) := by
  constructor
  · intro h
    simp [profiler_function, h]
  · intro h
    unfold profiler_function
    simp only [h, Bool.false_eq_true, if_false]
    cases pframe with
    | none => rfl
    | some frame =>
      cases hb : profiler_body rmatch st.config
          (st.omnitracePath.getD st.config.base_module_path) frame what args
          st.labels st.config.records st.depthTracker with
      | none => simp [hb]
      | some v =>
        obtain ⟨a, b, c, d⟩ := v
        simp [hb]

/-- Witness for C5: a nested (disabled) invocation is the identity, and
a fresh (enabled) invocation exits with the flag down. -/
theorem reentrancy_guard_witness :
    profiler_function mFalse { mkTLState {} none with disable := true } (some frEx)
        "call" (ArgsOutcome.ok "")
      = ({ mkTLState {} none with disable := true }, [], false) ∧
    (profiler_function mFalse (mkTLState {} none) (some frEx) "call"
        (ArgsOutcome.ok "")).1.disable = false :=
  ⟨(reentrancy_guard mFalse { mkTLState {} none with disable := true } (some frEx)
      "call" (ArgsOutcome.ok "")).1 rfl,
   (reentrancy_guard mFalse (mkTLState {} none) (some frEx) "call"
      (ArgsOutcome.ok "")).2 rfl⟩

/-- C2 amended: the per-thread depth counter starts at 0 when the
thread-local state is first materialized, and neither `_init` nor
`_fini` ever modifies it (so it is NOT reset when tracing restarts). -/
theorem depth_counter_lifecycle (cfg : Config) (opath : Option String)
    (st : TLState) (mf : Option String) :
    (mkTLState cfg opath).depthTracker = 0 ∧
    (_init mf st).depthTracker = st.depthTracker ∧
    (_fini st).depthTracker = st.depthTracker := by
  refine ⟨rfl, ?_, ?_⟩
  · unfold _init
    cases mf <;> dsimp only <;> split <;> rfl
  · unfold _fini
    split <;> rfl

/-- State of the C2 scenario after `profiler_init` on a fresh thread
(internal paths included so the scenario's events are accepted). -/
def c2_s1 : TLState := _init none (mkTLState { include_internal := true } none)

/-- C2 scenario after one accepted `call` event (counter is 1). -/
def c2_s2 : TLState :=
  (profiler_function mFalse c2_s1 (some frEx) "call" (ArgsOutcome.ok "")).1

/-- C2 scenario after `profiler_finalize` followed by `profiler_init`
(a stop/start cycle). -/
def c2_s3 : TLState := _init none (_fini c2_s2)

/-- C2 counterexample: after a stop/start cycle the depth counter still
holds 1, and the first event dispatched after the restart observes
depth 1 (the ledger entry is created at key 1), not a depth computed
from a counter value of 0. -/
theorem depth_counter_not_reset_on_restart :
    c2_s3.depthTracker = 1 ∧
    (profiler_function mFalse c2_s3 (some frEx) "call"
        (ArgsOutcome.ok "")).1.config.records = [(1, [("foo", ["foo"])])] := by
  constructor <;> rfl

/-- C6 amended: `_init` always stores the module dirname into
`base_module_path` (even when already running); when already running
nothing else changes, and when not running it additionally clears the
ledger, resets `base_stack_depth` to `-1` and sets the running flag. -/
theorem init_effects (st : TLState) (mf : Option String) :
    (st.config.is_running = true →
      _init mf st = { st with config :=
        { st.config with
            base_module_path := newBMP mf st.config.base_module_path } }) ∧
    (st.config.is_running = false →
      _init mf st = { st with config :=
        { st.config with
            base_module_path := newBMP mf st.config.base_module_path,
            records := [], base_stack_depth := -1, is_running := true } }) := by
  constructor <;> intro h <;> unfold _init <;> cases mf <;> simp [newBMP, h]
  all_goals rw [← h]

/-- A running state whose installation path is `"orig"`. -/
def c6_running : TLState :=
  mkTLState { is_running := true, base_module_path := "orig" } none

/-- A stopped state whose installation path is `"orig"`. -/
def c6_stopped : TLState := mkTLState { base_module_path := "orig" } none

/-- The module file path of the C6 witness scenario. -/
def c6_mod : Option String := some "mod/omnitrace.py"

/-- Witness for C6, covering both the running and the stopped branch. -/
theorem init_effects_witness :
    _init c6_mod c6_running
      = { c6_running with config :=
          { c6_running.config with base_module_path := newBMP c6_mod c6_running.config.base_module_path } } ∧
    _init c6_mod c6_stopped
      = { c6_stopped with config := { c6_stopped.config with base_module_path := newBMP c6_mod c6_stopped.config.base_module_path, records := [], base_stack_depth := -1, is_running := true } } :=
  ⟨(init_effects c6_running c6_mod).1 rfl, (init_effects c6_stopped c6_mod).2 rfl⟩

/-- C6 counterexample: start-session on an already-running
configuration still overwrites `base_module_path` (here `"orig"`
becomes `"mod"`), so the configuration state is not left unchanged. -/
theorem init_mutates_path_while_running :
    c6_running.config.is_running = true ∧
    c6_running.config.base_module_path = "orig" ∧
    (_init (some "mod/omnitrace.py") c6_running).config.base_module_path = "mod" :=
  ⟨rfl, rfl, rfl⟩

theorem body_ignores_bmp (rmatch : String → String → Bool) (cfg : Config)
    (q opath : String) (frame : Frame) (what : String) (args : ArgsOutcome)
    (labels : List String) (records : Records) (depth : Int) :
    profiler_body rmatch { cfg with base_module_path := q } opath frame what args
        labels records depth
      = profiler_body rmatch cfg opath frame what args labels records depth := by
  cases cfg
  rfl

theorem body_empty_path (rmatch : String → String → Bool) (cfg : Config)
    (frame : Frame) (what : String) (args : ArgsOutcome) (labels : List String)
    (records : Records) (depth : Int) (hii : cfg.include_internal = false) :
    profiler_body rmatch cfg "" frame what args labels records depth
      = some (labels, records, depth, []) := by
  have h0 : pathStartsWith (String.toList "") (String.toList frame.co_filename)
      = true := rfl
  unfold profiler_body
  cases hc : classify what with
  | none => rfl
  | some k =>
    dsimp only
    split_ifs <;> try rfl
    all_goals simp_all

/-- C10 amended: (a) once the installation path has been captured, the
dispatcher's sink calls, ledger, depth counter, label registry and
captured path are unaffected by any later value of `base_module_path`;
(b) the capture happens at the first non-nested invocation that
receives a frame, storing the then-current `base_module_path`; (c) if
the effective captured path is empty and `include_internal` is false,
every event is rejected: no sink call, no exception, and the ledger,
label registry and depth counter are unchanged. -/
theorem omnitrace_path_capture (rmatch : String → String → Bool) (st : TLState)
    (pframe : Option Frame) (frame : Frame) (what : String) (args : ArgsOutcome)
    (p q : String) :
    (st.omnitracePath = some p →
      (let r := profiler_function rmatch st pframe what args
       let r' := profiler_function rmatch
         { st with config := { st.config with base_module_path := q } } pframe what args
       r'.2 = r.2 ∧ r'.1.config.records = r.1.config.records ∧
       r'.1.depthTracker = r.1.depthTracker ∧ r'.1.labels = r.1.labels ∧
       r'.1.omnitracePath = r.1.omnitracePath)) ∧
    (st.disable = false → st.omnitracePath = none →
      (profiler_function rmatch st (some frame) what args).1.omnitracePath
        = some st.config.base_module_path) ∧
    (st.omnitracePath.getD st.config.base_module_path = "" →
      st.config.include_internal = false →
      (profiler_function rmatch st (some frame) what args).1.config.records
          = st.config.records ∧
      (profiler_function rmatch st (some frame) what args).1.labels = st.labels ∧
      (profiler_function rmatch st (some frame) what args).1.depthTracker
          = st.depthTracker ∧
      (profiler_function rmatch st (some frame) what args).2.1 = [] ∧
      (profiler_function rmatch st (some frame) what args).2.2 = false) := by
  refine ⟨?_, ?_, ?_⟩
  · intro hp
    unfold profiler_function
    cases hd : st.disable with
    | true => simp [hd]
    | false =>
      simp only [hd, Bool.false_eq_true, if_false]
      cases pframe with
      | none => simp
      | some fr =>
        simp only [hp, Option.getD_some]
        rw [body_ignores_bmp rmatch st.config q p fr what args st.labels
          st.config.records st.depthTracker]
        cases hb : profiler_body rmatch st.config p fr what args st.labels
            st.config.records st.depthTracker with
        | none => simp
        | some v =>
          obtain ⟨a, b, c, d⟩ := v
          simp
  · intro hd hn
    unfold profiler_function
    simp only [hd, Bool.false_eq_true, if_false, hn, Option.getD_none]
    cases hb : profiler_body rmatch st.config st.config.base_module_path frame
        what args st.labels st.config.records st.depthTracker with
    | none => simp [hb]
    | some v =>
      obtain ⟨a, b, c, d⟩ := v
      simp [hb]
  · intro hcap hii
    unfold profiler_function
    cases hd : st.disable with
    | true => simp [hd]
    | false =>
      simp only [hd, Bool.false_eq_true, if_false]
      rw [hcap, body_empty_path rmatch st.config frame what args st.labels
        st.config.records st.depthTracker hii]
      simp

/-- C10 scenario: a state whose `base_module_path` is `"/x"` and whose
installation path has not been captured yet. -/
def c10_s1 : TLState :=
  mkTLState { base_module_path := "/x", include_internal := true } none

/-- C10 scenario: the state after a first invocation of the dispatcher
with a null frame, followed by setting `base_module_path` to `"/y"`. -/
def c10_s2 : TLState :=
  let r := (profiler_function mFalse c10_s1 none "call" (ArgsOutcome.ok "")).1
  { r with config := { r.config with base_module_path := "/y" } }

/-- C10 counterexample: the first invocation of the dispatcher in the
process (here with a null frame) does not capture the installation
path; the capture happens at a later invocation, picking up the value
`"/y"` that was stored only after the first invocation — not the value
`"/x"` that was current at the first invocation. -/
theorem capture_not_at_first_invocation :
    c10_s1.config.base_module_path = "/x" ∧
    (profiler_function mFalse c10_s1 none "call" (ArgsOutcome.ok "")).1.omnitracePath
      = none ∧
    (profiler_function mFalse c10_s2 (some frEx) "call"
        (ArgsOutcome.ok "")).1.omnitracePath = some "/y" :=
  ⟨rfl, rfl, rfl⟩

/-- Witness for C10, instantiating the three conjuncts of
`omnitrace_path_capture` on concrete states. -/
theorem omnitrace_path_capture_witness :
    (let r := profiler_function mFalse (mkTLState {} (some "/z")) (some frEx)
       "call" (ArgsOutcome.ok "")
     let r' := profiler_function mFalse
       { mkTLState {} (some "/z") with config := { (mkTLState {} (some "/z")).config with base_module_path := "/q" } }
       (some frEx) "call" (ArgsOutcome.ok "")
     r'.2 = r.2 ∧ r'.1.config.records = r.1.config.records ∧
     r'.1.depthTracker = r.1.depthTracker ∧ r'.1.labels = r.1.labels ∧
     r'.1.omnitracePath = r.1.omnitracePath) ∧
    (profiler_function mFalse (mkTLState {} none) (some frEx) "call"
        (ArgsOutcome.ok "")).1.omnitracePath
      = some (mkTLState {} none).config.base_module_path ∧
    ((profiler_function mFalse (mkTLState {} none) (some frEx) "call"
        (ArgsOutcome.ok "")).1.config.records = (mkTLState {} none).config.records ∧
     (profiler_function mFalse (mkTLState {} none) (some frEx) "call"
        (ArgsOutcome.ok "")).1.labels = (mkTLState {} none).labels ∧
     (profiler_function mFalse (mkTLState {} none) (some frEx) "call"
        (ArgsOutcome.ok "")).1.depthTracker = (mkTLState {} none).depthTracker ∧
     (profiler_function mFalse (mkTLState {} none) (some frEx) "call"
        (ArgsOutcome.ok "")).2.1 = [] ∧
     (profiler_function mFalse (mkTLState {} none) (some frEx) "call"
        (ArgsOutcome.ok "")).2.2 = false) :=
  ⟨(omnitrace_path_capture mFalse (mkTLState {} (some "/z")) (some frEx) frEx
      "call" (ArgsOutcome.ok "") "/z" "/q").1 rfl,
   (omnitrace_path_capture mFalse (mkTLState {} none) (some frEx) frEx
      "call" (ArgsOutcome.ok "") "" "").2.1 rfl rfl,
   (omnitrace_path_capture mFalse (mkTLState {} none) (some frEx) frEx
      "call" (ArgsOutcome.ok "") "" "").2.2 rfl rfl⟩

theorem alistFind_alistSet_ne {α β : Type} [DecidableEq α] (l : List (α × β))
    (a b : α) (v : β) (h : ¬a = b) :
    alistFind b (alistSet l a v) = alistFind b l := by
  induction l with
  | nil => simp [alistSet, alistFind, h]
  | cons p rest ih =>
    obtain ⟨x, y⟩ := p
    by_cases hx : x = a
    · subst hx
      simp [alistSet, alistFind, h]
    · simp [alistSet, hx, alistFind, ih]

theorem alistFind_append_single {α β : Type} [DecidableEq α] (l : List (α × β))
    (a b : α) (v : β) :
    alistFind b (l ++ [(a, v)]) =
      match alistFind b l with
      | some x => some x
      | none => if a = b then some v else none := by
  induction l with
  | nil => simp [alistFind]
  | cons p rest ih =>
    obtain ⟨x, y⟩ := p
    by_cases hx : x = b <;> simp [alistFind, hx, ih]

/-- C3 amended: a configuration mutation through a thread whose
`get_config` slot is a private copy leaves the process-wide instance
unchanged; and a mutation executed on thread `tid` never changes the
configuration another already-materialized thread `tid'` observes (so
`tid'`'s filtering decisions are unaffected) — under the
reachable-state invariants that at most one thread aliases the
process-wide instance and that a zero thread count means no thread has
been observed.  (The first observed thread is NOT a private copy: it
aliases the process-wide instance.) -/
theorem config_isolation (s : ProcState) (tid tid' : Nat) (f : Config → Config)
    (c : Config) :
    (alistFind tid s.threads = some (ThreadSlot.copied c) →
      (mutateOn s tid f).global = s.global) ∧
    (¬tid = tid' →
      ¬(alistFind tid s.threads = some ThreadSlot.aliasG ∧
        alistFind tid' s.threads = some ThreadSlot.aliasG) →
      (s.count = 0 → s.threads = []) →
      ∀ slot, alistFind tid' s.threads = some slot →
        effectiveConfig (mutateOn s tid f) tid' = effectiveConfig s tid') := by
  constructor
  · intro h
    simp [mutateOn, observe, h]
  · intro hne hnal hcnt slot hslot
    cases hfind : alistFind tid s.threads with
    | some slotT =>
      cases slotT with
      | aliasG =>
        have hs : alistFind tid' s.threads ≠ some ThreadSlot.aliasG :=
          fun hx => hnal ⟨hfind, hx⟩
        cases slot with
        | aliasG => exact absurd hslot hs
        | copied c' => simp [mutateOn, observe, hfind, effectiveConfig, hslot]
      | copied c0 =>
        simp [mutateOn, observe, hfind, effectiveConfig,
          alistFind_alistSet_ne _ _ _ _ hne, hslot]
    | none =>
      by_cases hzero : s.count = 0
      · rw [hcnt hzero] at hslot
        simp [alistFind] at hslot
      · have happ : alistFind tid
            (s.threads ++ [(tid, ThreadSlot.copied (seedCopy s.global))])
            = some (ThreadSlot.copied (seedCopy s.global)) := by
          rw [alistFind_append_single]
          simp [hfind]
        have happ2 : alistFind tid'
            (s.threads ++ [(tid, ThreadSlot.copied (seedCopy s.global))])
            = some slot := by
          rw [alistFind_append_single]
          simp [hslot]
        simp [mutateOn, observe, hfind, hzero, happ, effectiveConfig,
          alistFind_alistSet_ne _ _ _ _ hne, happ2, hslot]

/-- C3 counterexample scenario: an empty process, thread 0 observed
first (drawing atomic count 0). -/
def c3_bad : ProcState := observe initialProc 0

/-- C3 counterexample: the configuration the first observed thread
operates on is not a private copy — mutating it (here: enabling
`trace_c` through thread 0's `get_config`) changes the process-wide
instance. -/
theorem first_thread_aliases_global :
    initialProc.global.trace_c = false ∧
    (mutateOn c3_bad 0 (fun c => { c with trace_c := true })).global.trace_c
      = true :=
  ⟨rfl, rfl⟩

/-- C3 witness scenario: thread 0 aliases the process-wide instance,
thread 1 holds a private copy. -/
def c3_s : ProcState :=
  { global := {},
    threads := [(0, ThreadSlot.aliasG), (1, ThreadSlot.copied {})], count := 2 }

/-- Witness for C3: mutating on thread 1 (a private copy) leaves the
process-wide instance unchanged and does not change what thread 0
observes. -/
theorem config_isolation_witness :
    (mutateOn c3_s 1 (fun c => { c with trace_c := true })).global = c3_s.global ∧
    effectiveConfig (mutateOn c3_s 1 (fun c => { c with trace_c := true })) 0
      = effectiveConfig c3_s 0 :=
  ⟨(config_isolation c3_s 1 0 (fun c => { c with trace_c := true }) {}).1 rfl,
   (config_isolation c3_s 1 0 (fun c => { c with trace_c := true }) {}).2
     (by decide) (by decide) (by decide) ThreadSlot.aliasG rfl⟩

end PyProfile
